import Mathlib

/-!
Shallow embedding of the Storyclunk serverless application:
the two Lambda request handlers (continue-story in
src/unnamed/part_000 and src/infra/lambda/suggest-improvements/index.js),
the CI/CD pipeline stage table (PipelineStack in src/infra/lib/stacks),
and the secret-bootstrap step of src/scripts/deploy.sh.

External collaborators (the JSON parser, the secret store, the Supabase
datastore, and the Bedrock inference service) are modelled as explicit
outcome parameters passed to each handler: the handler itself only
branches on those outcomes, exactly as the JavaScript does around its
library calls.
-/

namespace Storyclunk

/-- A JavaScript error value as observed by the catch blocks:
only its `name` and `message` properties are inspected by the code. -/
structure JsError where
  name : String
  message : String
deriving DecidableEq

/-- A Lambda proxy response: statusCode, headers, body. Headers are kept
as an ordered key/value list; spreading corsHeaders first and then adding
Content-Type corresponds to list append. -/
structure LambdaResponse where
  statusCode : Nat
  headers : List (String × String)
  body : String
deriving DecidableEq

/-- The fixed permissive cross-origin header set `corsHeaders`, shared
verbatim by both handlers. -/
def corsHeaders : List (String × String) :=
  [("Access-Control-Allow-Origin", "*"),
   ("Access-Control-Allow-Headers", "authorization, x-client-info, apikey, content-type"),
   ("Access-Control-Allow-Methods", "GET, POST, OPTIONS")]

/-- Headers of every non-OPTIONS response: the spread of `corsHeaders`
plus a JSON Content-Type. -/
def jsonHeaders : List (String × String) :=
  corsHeaders ++ [("Content-Type", "application/json")]

/-- `JSON.stringify` of an object with a single `error` field whose value
is one of the fixed handler messages (none of which needs escaping). -/
def jsonError (msg : String) : String :=
  "\x7b\"error\":\"" ++ msg ++ "\"\x7d"

/-- `JSON.stringify` of the continue-story success body (escaping of
special characters inside the generated text is not modelled; no claim
depends on it). -/
def jsonContinuation (text : String) : String :=
  "\x7b\"continuation\":\"" ++ text ++ "\"\x7d"

/-- `JSON.stringify` of the suggest-improvements success body. -/
def jsonSuggestions (text : String) : String :=
  "\x7b\"suggestions\":\"" ++ text ++ "\"\x7d"

/-- JavaScript `a || b` on strings: the fallback is taken when the first
string is empty (falsy). -/
def jsStringOr (s dflt : String) : String :=
  if s = "" then dflt else s

/-- JavaScript truthiness test `!x` for an optional string field of a
parsed JSON body: absent (undefined/null) and the empty string are falsy. -/
def jsFalsyString : Option String → Bool
  | none => true
  | some s => s == ""

/-- The shared catch block of both handlers: ThrottlingException and
ServiceQuotaExceededException map to 429 with a fixed message; every other
error maps to 500 with `error.message || "An error occurred"`. -/
def catchResponse (e : JsError) : LambdaResponse :=
  if e.name = "ThrottlingException" ∨ e.name = "ServiceQuotaExceededException" then
    { statusCode := 429
      headers := jsonHeaders
      body := jsonError "Rate limit exceeded. Please try again in a moment." }
  else
    { statusCode := 500
      headers := jsonHeaders
      body := jsonError (jsStringOr e.message "An error occurred") }

/-- The fixed response to an OPTIONS (CORS preflight) request, shared by
both handlers: 200, exactly the cross-origin headers, empty body. -/
def optionsResponse : LambdaResponse :=
  { statusCode := 200, headers := corsHeaders, body := "" }

/-- One story segment as consumed by continue-story:
`content` text plus the `is_ai_generated` flag. -/
structure StorySegment where
  content : String
  is_ai_generated : Bool
deriving DecidableEq

/-- The parsed JSON body of a continue-story request after destructuring
`previousSegments` and `genre`; each field is absent when the JSON body
did not provide it (or was not an object). -/
structure ContinueBody where
  previousSegments : Option (List StorySegment)
  genre : Option String
deriving DecidableEq

/-- JavaScript truthiness test `!previousSegments`: an absent field is
falsy, while any array (even empty) is truthy. -/
def jsFalsyArray : Option (List StorySegment) → Bool
  | none => true
  | some _ => false

/-- A JavaScript value observed by the genre lookup: either a string own
property of the object literal, or a member inherited from
Object.prototype (a built-in function, or the prototype object itself for
__proto__); every inherited member is truthy. -/
inductive JsValue where
  | str (s : String)
  | protoMember (name : String)
deriving DecidableEq

/-- The property names every plain object literal inherits from
Object.prototype. Bracket lookup on the genre table finds these even
though they are not own properties of the literal. -/
def objectPrototypeMembers : List String :=
  ["constructor", "hasOwnProperty", "isPrototypeOf", "propertyIsEnumerable",
   "toLocaleString", "toString", "valueOf",
   "__defineGetter__", "__defineSetter__", "__lookupGetter__", "__lookupSetter__",
   "__proto__"]

/-- The sci-fi table entry, the fallback value of the selection below. -/
def sciFiPrompt : String :=
  "You are a science fiction author. Create imaginative, thought-provoking story continuations with advanced technology, alien worlds, and futuristic concepts."

/-- `genrePrompts[genre]`: JavaScript bracket lookup on the object
literal with the three own keys scary, funny, sci-fi. The lookup consults
the prototype chain, so an Object.prototype member name yields the truthy
inherited member; every other off-table key yields undefined (none). -/
def genrePrompts (key : String) : Option JsValue :=
  if key = "scary" then
    some (JsValue.str "You are a master horror writer. Create suspenseful, eerie, and thrilling story continuations that keep readers on edge. Use vivid, atmospheric descriptions and build tension.")
  else if key = "funny" then
    some (JsValue.str "You are a comedic storyteller. Create humorous, witty, and entertaining story continuations with clever wordplay, unexpected twists, and laugh-out-loud moments.")
  else if key = "sci-fi" then
    some (JsValue.str sciFiPrompt)
  else if key ∈ objectPrototypeMembers then
    some (JsValue.protoMember key)
  else
    none

/-- `genrePrompts[genre] || genrePrompts[..sci-fi..]`: only an undefined
lookup result falls back to the sci-fi prompt, since every defined result
(a nonempty own string or an inherited Object.prototype member) is
truthy. -/
def systemPromptLookup (genre : String) : JsValue :=
  (genrePrompts genre).getD (JsValue.str sciFiPrompt)

/-- JavaScript template interpolation of the selected value: a string
interpolates as itself; the engine-specific source text of an inherited
Object.prototype member is rendered opaquely (no claim depends on it). -/
def jsValueText : JsValue → String
  | .str s => s
  | .protoMember name => "[inherited Object.prototype." ++ name ++ "]"

/-- One transcript line of the continue-story context: the tag is
`[AI]` when `is_ai_generated` holds and `[User]` otherwise, followed by
a colon, a space, and the segment content. -/
def segmentLine (seg : StorySegment) : String :=
  (if seg.is_ai_generated then "[AI]" else "[User]") ++ ": " ++ seg.content

/-- `storyContext`: the transcript lines joined by blank lines. -/
def storyContext (segs : List StorySegment) : String :=
  String.intercalate "\n\n" (segs.map segmentLine)

/-- The `userPrompt` string of continue-story. -/
def continueUserPrompt (genre : String) (segs : List StorySegment) : String :=
  "Continue this " ++ genre ++ " story with 2-3 engaging paragraphs that naturally flow from what came before. Make it creative and compelling:\n\n"
    ++ storyContext segs ++ "\n\nYour continuation:"

/-- The Bedrock model identifier used by both handlers. -/
def claudeModelId : String := "us.anthropic.claude-haiku-4-5-20251001-v1:0"

/-- The outbound Bedrock inference request: model id, anthropic_version,
max_tokens, temperature, and the text of the single-turn user message.
The temperature literal 0.7 is represented exactly as the rational 7/10. -/
structure BedrockPrompt where
  modelId : String
  anthropic_version : String
  max_tokens : Nat
  temperature : ℚ
  messageText : String
deriving DecidableEq

/-- The outbound request assembled by continue-story: fixed sampling
parameters and a single user message of system prompt plus user prompt. -/
def buildContinuePrompt (genre : String) (segs : List StorySegment) : BedrockPrompt :=
  { modelId := claudeModelId
    anthropic_version := "bedrock-2023-05-31"
    max_tokens := 4096
    temperature := 7/10
    messageText := jsValueText (systemPromptLookup genre) ++ "\n\n" ++ continueUserPrompt genre segs }

/-- The observable outcome of one handler invocation: the HTTP response
together with the Bedrock request sent, if any inference call was made. -/
structure HandlerRun where
  response : LambdaResponse
  bedrockCall : Option BedrockPrompt
deriving DecidableEq

/-- The continue-story handler.
`parseResult` is the outcome of `JSON.parse` applied to the request body
(with the empty-object default when the body is absent): a thrown parse
error surfaces as `.error` and is handled by the shared catch block, since
the parse happens inside the try. `bedrock` is the outcome of the
InvokeModel call (including response decoding) as a function of the
request actually sent. -/
def continueStory (httpMethod : String)
    (parseResult : Except JsError ContinueBody)
    (bedrock : BedrockPrompt → Except JsError String) : HandlerRun :=
  if httpMethod = "OPTIONS" then
    { response := optionsResponse, bedrockCall := none }
  else
    match parseResult with
    | .error e => { response := catchResponse e, bedrockCall := none }
    | .ok b =>
      if jsFalsyArray b.previousSegments || jsFalsyString b.genre then
        { response :=
            { statusCode := 400
              headers := jsonHeaders
              body := jsonError "previousSegments and genre are required" }
          bedrockCall := none }
      else
        -- both fields are truthy here, so the defaults are never taken
        let segs := b.previousSegments.getD []
        let genre := b.genre.getD ""
        let prompt := buildContinuePrompt genre segs
        match bedrock prompt with
        | .error e => { response := catchResponse e, bedrockCall := some prompt }
        | .ok text =>
          { response :=
              { statusCode := 200
                headers := jsonHeaders
                body := jsonContinuation text }
            bedrockCall := some prompt }

/-- The parsed JSON body of a suggest-improvements request after
destructuring `segmentId`. -/
structure SuggestBody where
  segmentId : Option String
deriving DecidableEq

/-- The secret bundle as parsed from the secret string; the handler reads
only the two Supabase fields it validates. A field is absent when the
stored JSON lacks it. -/
structure SupabaseSecrets where
  SUPABASE_URL : Option String
  SUPABASE_SERVICE_ROLE_KEY : Option String
deriving DecidableEq

/-- A row of the joined `stories` relation: its `genre` column. -/
structure StoryRow where
  genre : Option String
deriving DecidableEq

/-- The shape of `segment.stories` returned by the Supabase join: the
client may return the related rows as an array or as a single object
(possibly null); the handler handles both with `Array.isArray`. -/
inductive StoriesJoin where
  | arr (rows : List StoryRow)
  | obj (row : Option StoryRow)
deriving DecidableEq

/-- The segment row selected by the fetch:
`content, story_id, stories(genre)` (story_id is not used afterwards). -/
structure FetchedSegment where
  content : String
  stories : StoriesJoin
deriving DecidableEq

/-- The `\x7b data, error \x7d` pair returned by the Supabase query: the
client reports failures through `error` instead of throwing. -/
structure FetchResult where
  data : Option FetchedSegment
  error : Option JsError
deriving DecidableEq

/-- `Array.isArray(storyData) ? storyData[0]?.genre : storyData?.genre`:
optional chaining yields undefined (none) on an empty array or a null
object, or when the row has no genre. -/
def extractGenre : StoriesJoin → Option String
  | .arr rows => rows.head?.bind (fun r => r.genre)
  | .obj row => row.bind (fun r => r.genre)

/-- JavaScript template interpolation of a possibly-undefined value:
undefined renders as the literal text `undefined`. -/
def jsTemplate : Option String → String
  | none => "undefined"
  | some s => s

/-- The fixed coaching system prompt of suggest-improvements. -/
def suggestSystemPrompt : String :=
  "You are an expert creative writing coach. Analyze the provided story segment and suggest specific, actionable improvements. Focus on:\n- Narrative flow and pacing\n- Character development\n- Descriptive language and imagery\n- Dialogue quality (if present)\n- Genre-specific elements\n- Grammar and style\n\nProvide 3-5 concrete suggestions that will enhance the writing quality."

/-- The outbound request assembled by suggest-improvements: the same
fixed sampling parameters, and a user message of the coaching prompt plus
genre and segment content. -/
def buildSuggestPrompt (genre : Option String) (content : String) : BedrockPrompt :=
  { modelId := claudeModelId
    anthropic_version := "bedrock-2023-05-31"
    max_tokens := 4096
    temperature := 7/10
    messageText := suggestSystemPrompt ++ "\n\n" ++ "Genre: " ++ jsTemplate genre
      ++ "\n\nStory segment to analyze:\n\n" ++ content
      ++ "\n\nProvide specific improvement suggestions:" }

/-- The suggest-improvements handler.
`parseResult` is the outcome of `JSON.parse` on the request body (empty
object when the body is absent); `secrets` the outcome of `getSecrets`
(the secret-store call and the parse of the secret string, both of which
may throw into the shared catch); `fetch` the data/error pair of the
Supabase single-row query; `bedrock` the outcome of the InvokeModel call
as a function of the request sent. -/
def suggestImprovements (httpMethod : String)
    (parseResult : Except JsError SuggestBody)
    (secrets : Except JsError SupabaseSecrets)
    (fetch : FetchResult)
    (bedrock : BedrockPrompt → Except JsError String) : HandlerRun :=
  if httpMethod = "OPTIONS" then
    { response := optionsResponse, bedrockCall := none }
  else
    match parseResult with
    | .error e => { response := catchResponse e, bedrockCall := none }
    | .ok b =>
      if jsFalsyString b.segmentId then
        { response :=
            { statusCode := 400
              headers := jsonHeaders
              body := jsonError "Segment ID is required" }
          bedrockCall := none }
      else
        match secrets with
        | .error e => { response := catchResponse e, bedrockCall := none }
        | .ok s =>
          if jsFalsyString s.SUPABASE_URL || jsFalsyString s.SUPABASE_SERVICE_ROLE_KEY then
            -- throw new Error(..) caught by the shared catch block
            { response := catchResponse { name := "Error", message := "Supabase credentials not configured" }
              bedrockCall := none }
          else
            match fetch.error, fetch.data with
            | some _, _ | none, none =>
              -- if (fetchError || !segment) return 404
              { response :=
                  { statusCode := 404
                    headers := jsonHeaders
                    body := jsonError "Segment not found" }
                bedrockCall := none }
            | none, some seg =>
              let genre := extractGenre seg.stories
              let prompt := buildSuggestPrompt genre seg.content
              match bedrock prompt with
              | .error e => { response := catchResponse e, bedrockCall := some prompt }
              | .ok text =>
                { response :=
                    { statusCode := 200
                      headers := jsonHeaders
                      body := jsonSuggestions text }
                  bedrockCall := some prompt }

/-- One pipeline action: its name and its run order within the stage.
CodePipeline actions without an explicit runOrder default to 1; actions
sharing a runOrder in a stage run in parallel. -/
structure PipelineAction where
  actionName : String
  runOrder : Nat
deriving DecidableEq

/-- One pipeline stage: its name and its ordered action list. -/
structure PipelineStage where
  stageName : String
  actions : List PipelineAction
deriving DecidableEq

/-- The stage table of PipelineStack, transcribed from the `stages`
array: stage names, action names, and the explicit run orders of the two
deploy stages (all other actions keep the default run order 1). -/
def pipelineStages : List PipelineStage :=
  [ { stageName := "Source"
      actions := [{ actionName := "Source", runOrder := 1 }] },
    { stageName := "UpdatePipeline"
      actions := [{ actionName := "UpdatePipeline", runOrder := 1 }] },
    { stageName := "Quality"
      actions := [{ actionName := "LintTypeSecrets", runOrder := 1 },
                  { actionName := "UnitTests", runOrder := 1 },
                  { actionName := "DepScan", runOrder := 1 }] },
    { stageName := "Build"
      actions := [{ actionName := "FrontendBuild", runOrder := 1 },
                  { actionName := "BackendBuild", runOrder := 1 },
                  { actionName := "IacSynth", runOrder := 1 }] },
    { stageName := "DeployDev"
      actions := [{ actionName := "DeployBackendDev", runOrder := 1 },
                  { actionName := "DeployFrontendDev", runOrder := 2 }] },
    { stageName := "ManualApproval"
      actions := [{ actionName := "ApproveProductionDeployment", runOrder := 1 }] },
    { stageName := "DeployProd"
      actions := [{ actionName := "DeployBackendProd", runOrder := 1 },
                  { actionName := "DeployFrontendProd", runOrder := 2 },
                  { actionName := "HealthCheckProd", runOrder := 3 }] } ]

/-- A secret store: an association of secret names to their values, as
manipulated by deploy.sh through the secret-manager CLI. -/
def SecretStore : Type := List (String × String)

/-- `get-secret-value`: look the secret up by name. -/
def getSecretValue (store : SecretStore) (name : String) : Option String :=
  (store.find? (fun p => p.1 == name)).map (fun p => p.2)

/-- `create-secret`: record a new secret with the given value. -/
def createSecret (store : SecretStore) (name value : String) : SecretStore :=
  (name, value) :: store

/-- The placeholder secret string deploy.sh supplies on creation. -/
def placeholderSecretString : String :=
  "\x7b\"SUPABASE_URL\":\"PLACEHOLDER\",\"SUPABASE_ANON_KEY\":\"PLACEHOLDER\",\"SUPABASE_SERVICE_ROLE_KEY\":\"PLACEHOLDER\"\x7d"

/-- Step 1 of deploy.sh: if `get-secret-value` for ENVIRONMENT/app-secrets
succeeds, leave the store alone; otherwise create the secret with the
placeholder values. -/
def ensureAppSecret (store : SecretStore) (env : String) : SecretStore :=
  match getSecretValue store (env ++ "/app-secrets") with
  | some _ => store
  | none => createSecret store (env ++ "/app-secrets") placeholderSecretString

/-- An existing secret makes the bootstrap step a no-op. -/
lemma ensureAppSecret_of_some (store : SecretStore) (env v : String)
    (h : getSecretValue store (env ++ "/app-secrets") = some v) :
    ensureAppSecret store env = store := by
  unfold ensureAppSecret
  rw [h]

/-- A missing secret makes the bootstrap step create the placeholder. -/
lemma ensureAppSecret_of_none (store : SecretStore) (env : String)
    (h : getSecretValue store (env ++ "/app-secrets") = none) :
    ensureAppSecret store env =
      createSecret store (env ++ "/app-secrets") placeholderSecretString := by
  unfold ensureAppSecret
  rw [h]

/-- A freshly created secret is found by a lookup under its name. -/
lemma getSecretValue_createSecret_self (store : SecretStore) (n v : String) :
    getSecretValue (createSecret store n v) n = some v := by
  simp [getSecretValue, createSecret, List.find?]

/-- C1 counterexample: at the concrete genre constructor, which is not
scary, funny or sci-fi, bracket lookup on the object literal finds the
truthy constructor member inherited from Object.prototype, the fallback
does not fire, and the selected value is not the sci-fi prompt. -/
theorem continue_story_genre_prompt_counterexample :
    systemPromptLookup "constructor" = JsValue.protoMember "constructor" ∧
    systemPromptLookup "constructor" ≠ JsValue.str sciFiPrompt :=
  ⟨by decide, by decide⟩

/-- C1 (amended): for every genre that is neither a table key nor an
Object.prototype member name, the selected prompt is the sci-fi prompt
(in particular for fantasy); for each genre in the table, the selected
prompt is exactly that table entry; for every Object.prototype member
name, the selection yields the truthy inherited member rather than the
sci-fi prompt. -/
theorem continue_story_genre_prompt_selection :
    (∀ genre : String, genre ∉ (["scary", "funny", "sci-fi"] : List String) →
      genre ∉ objectPrototypeMembers →
      systemPromptLookup genre = JsValue.str sciFiPrompt) ∧
    (∀ (genre p : String), genrePrompts genre = some (JsValue.str p) →
      systemPromptLookup genre = JsValue.str p) ∧
    (∀ genre ∈ objectPrototypeMembers,
      systemPromptLookup genre = JsValue.protoMember genre ∧
      systemPromptLookup genre ≠ JsValue.str sciFiPrompt) := by
  refine ⟨?_, ?_, ?_⟩
  · intro genre hg hp
    simp only [List.mem_cons, List.not_mem_nil, or_false, not_or] at hg
    obtain ⟨h1, h2, h3⟩ := hg
    unfold systemPromptLookup genrePrompts
    rw [if_neg h1, if_neg h2, if_neg h3, if_neg hp]
    rfl
  · intro genre p h
    unfold systemPromptLookup
    rw [h, Option.getD_some]
  · intro genre hg
    have h1 : ¬genre = "scary" := fun h => by subst h; revert hg; decide
    have h2 : ¬genre = "funny" := fun h => by subst h; revert hg; decide
    have h3 : ¬genre = "sci-fi" := fun h => by subst h; revert hg; decide
    unfold systemPromptLookup genrePrompts
    rw [if_neg h1, if_neg h2, if_neg h3, if_pos hg]
    exact ⟨rfl, by simp⟩

/-- Witness: the fallback fires at the concrete off-table genre fantasy,
the scary table entry is returned verbatim for scary, and the inherited
toString member is selected for toString. -/
theorem continue_story_genre_prompt_selection_witness :
    systemPromptLookup "fantasy" = JsValue.str sciFiPrompt ∧
    systemPromptLookup "scary" = JsValue.str "You are a master horror writer. Create suspenseful, eerie, and thrilling story continuations that keep readers on edge. Use vivid, atmospheric descriptions and build tension." ∧
    systemPromptLookup "toString" = JsValue.protoMember "toString" :=
  ⟨continue_story_genre_prompt_selection.1 "fantasy" (by decide) (by decide),
   continue_story_genre_prompt_selection.2.1 "scary" _ rfl,
   (continue_story_genre_prompt_selection.2.2 "toString" (by decide)).1⟩

/-- C3: the pipeline consists of exactly seven stages in the stated order,
with the stated action names and run orders (parallel actions share run
order 1; the deploy stages order backend before frontend, and production
adds a health check third). -/
theorem pipeline_stage_structure :
    pipelineStages.length = 7 ∧
    pipelineStages.map (fun s => s.stageName) =
      ["Source", "UpdatePipeline", "Quality", "Build", "DeployDev", "ManualApproval", "DeployProd"] ∧
    pipelineStages.map (fun s => s.actions.map (fun a => (a.actionName, a.runOrder))) =
      [[("Source", 1)],
       [("UpdatePipeline", 1)],
       [("LintTypeSecrets", 1), ("UnitTests", 1), ("DepScan", 1)],
       [("FrontendBuild", 1), ("BackendBuild", 1), ("IacSynth", 1)],
       [("DeployBackendDev", 1), ("DeployFrontendDev", 2)],
       [("ApproveProductionDeployment", 1)],
       [("DeployBackendProd", 1), ("DeployFrontendProd", 2), ("HealthCheckProd", 3)]] :=
  ⟨rfl, rfl, rfl⟩

/-- C4: the transcript line for the segment with content
"It was a dark night." and is_ai_generated false is exactly
"[User]: It was a dark night."; AI-generated segments are tagged [AI];
and every outbound continue-story inference request carries temperature
0.7 (the rational 7/10) and max_tokens 4096. -/
theorem continue_story_transcript_and_sampling :
    segmentLine { content := "It was a dark night.", is_ai_generated := false } =
      "[User]: It was a dark night." ∧
    (∀ c : String, segmentLine { content := c, is_ai_generated := true } = "[AI]: " ++ c) ∧
    (∀ (genre : String) (segs : List StorySegment),
      (buildContinuePrompt genre segs).temperature = 7/10 ∧
      (buildContinuePrompt genre segs).max_tokens = 4096) :=
  ⟨rfl, fun _ => rfl, fun _ _ => ⟨rfl, rfl⟩⟩

/-- C6: an OPTIONS request to either handler yields status 200, an empty
body, and exactly the fixed cross-origin headers, independently of the
body parse outcome, the secrets, the datastore, and the inference service,
and no inference call is made. -/
theorem options_preflight_fixed_response :
    (∀ (parseResult : Except JsError ContinueBody)
       (bedrock : BedrockPrompt → Except JsError String),
      continueStory "OPTIONS" parseResult bedrock =
        { response := optionsResponse, bedrockCall := none }) ∧
    (∀ (parseResult : Except JsError SuggestBody)
       (secrets : Except JsError SupabaseSecrets)
       (fetch : FetchResult)
       (bedrock : BedrockPrompt → Except JsError String),
      suggestImprovements "OPTIONS" parseResult secrets fetch bedrock =
        { response := optionsResponse, bedrockCall := none }) ∧
    optionsResponse = { statusCode := 200, headers := corsHeaders, body := "" } :=
  ⟨fun _ _ => rfl, fun _ _ _ _ => rfl, rfl⟩

/-- C2 counterexample: a malformed JSON body is NOT answered with 400.
JSON.parse runs inside the try block, so its SyntaxError lands in the
shared catch, which returns 500 for any error not named Throttling or
ServiceQuotaExceeded. Shown at the concrete continue-story request with
method POST and an unparsable body. -/
theorem malformed_json_counterexample :
    (continueStory "POST"
        (Except.error { name := "SyntaxError", message := "Unexpected end of JSON input" })
        (fun _ => Except.ok "")).response.statusCode = 500 ∧
    (continueStory "POST"
        (Except.error { name := "SyntaxError", message := "Unexpected end of JSON input" })
        (fun _ => Except.ok "")).response.statusCode ≠ 400 :=
  ⟨rfl, by decide⟩

/-- C2 amended: for every request to either handler whose parsed body is
missing a required field (previousSegments or genre for continue-story,
segmentId for suggest-improvements), the handler returns 400; a
malformed-JSON body instead flows into the shared catch block. -/
theorem missing_required_fields_return_400 :
    (∀ (m : String) (b : ContinueBody)
       (bedrock : BedrockPrompt → Except JsError String),
      m ≠ "OPTIONS" →
      (jsFalsyArray b.previousSegments || jsFalsyString b.genre) = true →
      (continueStory m (Except.ok b) bedrock).response.statusCode = 400) ∧
    (∀ (m : String) (b : SuggestBody)
       (secrets : Except JsError SupabaseSecrets)
       (fetch : FetchResult)
       (bedrock : BedrockPrompt → Except JsError String),
      m ≠ "OPTIONS" →
      jsFalsyString b.segmentId = true →
      (suggestImprovements m (Except.ok b) secrets fetch bedrock).response.statusCode = 400) := by
  constructor
  · intro m b bedrock hm hf
    unfold continueStory
    rw [if_neg hm]
    simp only [hf, if_true]
  · intro m b secrets fetch bedrock hm hf
    unfold suggestImprovements
    rw [if_neg hm]
    simp only [hf, if_true]

/-- Witness: both 400 branches fire at concrete empty-object bodies. -/
theorem missing_required_fields_return_400_witness :
    (continueStory "POST" (Except.ok { previousSegments := none, genre := none })
      (fun _ => Except.ok "")).response.statusCode = 400 ∧
    (suggestImprovements "POST" (Except.ok { segmentId := none })
      (Except.ok { SUPABASE_URL := none, SUPABASE_SERVICE_ROLE_KEY := none })
      { data := none, error := none }
      (fun _ => Except.ok "")).response.statusCode = 400 :=
  ⟨missing_required_fields_return_400.1 "POST" _ _ (by decide) (by decide),
   missing_required_fields_return_400.2 "POST" _ _ _ _ (by decide) (by decide)⟩

/-- C5: when the datastore fetch returns no row (and no error), the
suggest-improvements handler returns 404 with the Segment-not-found error
body, and no inference call is made. -/
theorem suggest_unknown_segment_returns_404 :
    ∀ (m : String) (b : SuggestBody) (s : SupabaseSecrets)
      (bedrock : BedrockPrompt → Except JsError String),
      m ≠ "OPTIONS" →
      jsFalsyString b.segmentId = false →
      jsFalsyString s.SUPABASE_URL = false →
      jsFalsyString s.SUPABASE_SERVICE_ROLE_KEY = false →
      suggestImprovements m (Except.ok b) (Except.ok s) { data := none, error := none } bedrock =
        { response :=
            { statusCode := 404
              headers := jsonHeaders
              body := jsonError "Segment not found" }
          bedrockCall := none } := by
  intro m b s bedrock hm hb hu hk
  unfold suggestImprovements
  rw [if_neg hm]
  simp only [hb, hu, hk, Bool.false_eq_true, if_false, Bool.or_self]

/-- Witness: the 404 branch fires at a concrete unknown segment id. -/
theorem suggest_unknown_segment_returns_404_witness :
    suggestImprovements "POST" (Except.ok { segmentId := some "missing-id" })
      (Except.ok { SUPABASE_URL := some "https://example.supabase.co", SUPABASE_SERVICE_ROLE_KEY := some "key" })
      { data := none, error := none }
      (fun _ => Except.ok "") =
      { response :=
          { statusCode := 404
            headers := jsonHeaders
            body := jsonError "Segment not found" }
        bedrockCall := none } :=
  suggest_unknown_segment_returns_404 "POST" _ _ _ (by decide) (by decide) (by decide) (by decide)

/-- C10: every error outcome of the datastore fetch, whatever its name or
message (connection failure, credentials failure, and so on), is mapped to
404 Segment not found, not 500, because the 404 branch triggers whenever
the fetch reports an error or yields no segment; no inference call is
made. -/
theorem suggest_fetch_error_returns_404 :
    ∀ (m : String) (b : SuggestBody) (s : SupabaseSecrets)
      (e : JsError) (d : Option FetchedSegment)
      (bedrock : BedrockPrompt → Except JsError String),
      m ≠ "OPTIONS" →
      jsFalsyString b.segmentId = false →
      jsFalsyString s.SUPABASE_URL = false →
      jsFalsyString s.SUPABASE_SERVICE_ROLE_KEY = false →
      suggestImprovements m (Except.ok b) (Except.ok s) { data := d, error := some e } bedrock =
        { response :=
            { statusCode := 404
              headers := jsonHeaders
              body := jsonError "Segment not found" }
          bedrockCall := none } := by
  intro m b s e d bedrock hm hb hu hk
  unfold suggestImprovements
  rw [if_neg hm]
  simp only [hb, hu, hk, Bool.false_eq_true, if_false, Bool.or_self]

/-- Witness: a concrete connection error from the fetch yields 404. -/
theorem suggest_fetch_error_returns_404_witness :
    suggestImprovements "POST" (Except.ok { segmentId := some "seg-1" })
      (Except.ok { SUPABASE_URL := some "https://example.supabase.co", SUPABASE_SERVICE_ROLE_KEY := some "key" })
      { data := none, error := some { name := "FetchError", message := "connection refused" } }
      (fun _ => Except.ok "") =
      { response :=
          { statusCode := 404
            headers := jsonHeaders
            body := jsonError "Segment not found" }
        bedrockCall := none } :=
  suggest_fetch_error_returns_404 "POST" _ _ _ none _ (by decide) (by decide) (by decide) (by decide)

/-- C7: a ThrottlingException or ServiceQuotaExceededException raised by
the inference call makes either handler return 429 with the fixed message;
any other caught failure returns 500 with the error message passed through
(with the literal An-error-occurred fallback when the message is empty).
Both handlers route every inference-call error through the shared catch
block. -/
theorem inference_error_status_mapping :
    (∀ e : JsError,
      e.name = "ThrottlingException" ∨ e.name = "ServiceQuotaExceededException" →
      catchResponse e =
        { statusCode := 429
          headers := jsonHeaders
          body := jsonError "Rate limit exceeded. Please try again in a moment." }) ∧
    (∀ e : JsError,
      e.name ≠ "ThrottlingException" → e.name ≠ "ServiceQuotaExceededException" →
      catchResponse e =
        { statusCode := 500
          headers := jsonHeaders
          body := jsonError (jsStringOr e.message "An error occurred") }) ∧
    (∀ (m : String) (b : ContinueBody) (e : JsError),
      m ≠ "OPTIONS" →
      (jsFalsyArray b.previousSegments || jsFalsyString b.genre) = false →
      (continueStory m (Except.ok b) (fun _ => Except.error e)).response = catchResponse e) ∧
    (∀ (m : String) (b : SuggestBody) (s : SupabaseSecrets)
       (seg : FetchedSegment) (e : JsError),
      m ≠ "OPTIONS" →
      jsFalsyString b.segmentId = false →
      jsFalsyString s.SUPABASE_URL = false →
      jsFalsyString s.SUPABASE_SERVICE_ROLE_KEY = false →
      (suggestImprovements m (Except.ok b) (Except.ok s)
          { data := some seg, error := none }
          (fun _ => Except.error e)).response = catchResponse e) := by
  refine ⟨?_, ?_, ?_, ?_⟩
  · intro e he
    unfold catchResponse
    rw [if_pos he]
  · intro e h1 h2
    unfold catchResponse
    rw [if_neg (by simp [h1, h2])]
  · intro m b e hm hf
    unfold continueStory
    rw [if_neg hm]
    simp only [hf, Bool.false_eq_true, if_false]
  · intro m b s seg e hm hb hu hk
    unfold suggestImprovements
    rw [if_neg hm]
    simp only [hb, hu, hk, Bool.false_eq_true, if_false, Bool.or_self]

/-- Witness: a concrete ThrottlingException from the inference call yields
the 429 response with the fixed message in continue-story, and a concrete
unnamed failure yields 500 with its message. -/
theorem inference_error_status_mapping_witness :
    (continueStory "POST"
        (Except.ok { previousSegments := some [], genre := some "scary" })
        (fun _ => Except.error { name := "ThrottlingException", message := "" })).response =
      { statusCode := 429
        headers := jsonHeaders
        body := jsonError "Rate limit exceeded. Please try again in a moment." } ∧
    catchResponse { name := "AccessDeniedException", message := "not authorized" } =
      { statusCode := 500
        headers := jsonHeaders
        body := jsonError "not authorized" } := by
  constructor
  · rw [inference_error_status_mapping.2.2.1 "POST" _ _ (by decide) (by decide)]
    exact inference_error_status_mapping.1 _ (Or.inl rfl)
  · exact inference_error_status_mapping.2.1 _ (by decide) (by decide)

/-- C9: the secret-bootstrap step of deploy.sh never overwrites an
existing per-environment secret (an existing value makes the step a
no-op), and running the step twice leaves the same secret store as
running it once. -/
theorem deploy_secret_bootstrap_idempotent :
    (∀ (store : SecretStore) (env v : String),
      getSecretValue store (env ++ "/app-secrets") = some v →
      ensureAppSecret store env = store) ∧
    (∀ (store : SecretStore) (env : String),
      ensureAppSecret (ensureAppSecret store env) env = ensureAppSecret store env) := by
  constructor
  · intro store env v h
    exact ensureAppSecret_of_some store env v h
  · intro store env
    cases hg : getSecretValue store (env ++ "/app-secrets") with
    | some v =>
      rw [ensureAppSecret_of_some store env v hg, ensureAppSecret_of_some store env v hg]
    | none =>
      rw [ensureAppSecret_of_none store env hg]
      exact ensureAppSecret_of_some _ env placeholderSecretString
        (getSecretValue_createSecret_self store _ placeholderSecretString)

/-- Witness: with the dev secret already present, the step leaves the
store unchanged, and a double run from the empty store equals one run. -/
theorem deploy_secret_bootstrap_idempotent_witness :
    ensureAppSecret [("dev/app-secrets", "real-value")] "dev" = [("dev/app-secrets", "real-value")] ∧
    ensureAppSecret (ensureAppSecret [] "dev") "dev" = ensureAppSecret [] "dev" :=
  ⟨deploy_secret_bootstrap_idempotent.1 _ "dev" "real-value" (by decide),
   deploy_secret_bootstrap_idempotent.2 [] "dev"⟩

/-- The non-OPTIONS headers extend the cross-origin headers. -/
lemma corsHeaders_mem_jsonHeaders : ∀ kv ∈ corsHeaders, kv ∈ jsonHeaders := by
  intro kv h
  exact List.mem_append_left _ h

/-- The shared catch block always answers 429 or 500 with the JSON
headers. -/
lemma catchResponse_status_headers (e : JsError) :
    (catchResponse e).statusCode ∈ ([429, 500] : List Nat) ∧
    (catchResponse e).headers = jsonHeaders := by
  unfold catchResponse
  split <;> simp

/-- Every continue-story response has a status from the fixed set and
carries either exactly the cross-origin headers or their JSON extension. -/
lemma continueStory_status_headers (m : String)
    (parseResult : Except JsError ContinueBody)
    (bedrock : BedrockPrompt → Except JsError String) :
    (continueStory m parseResult bedrock).response.statusCode ∈
      ([200, 400, 404, 429, 500] : List Nat) ∧
    ((continueStory m parseResult bedrock).response.headers = corsHeaders ∨
     (continueStory m parseResult bedrock).response.headers = jsonHeaders) := by
  unfold continueStory
  split
  · exact ⟨by simp [optionsResponse], Or.inl rfl⟩
  · split
    · rename_i e
      have h := catchResponse_status_headers e
      refine ⟨?_, Or.inr h.2⟩
      simp only [List.mem_cons, List.not_mem_nil, or_false] at h ⊢
      tauto
    · split
      · exact ⟨by simp, Or.inr rfl⟩
      · dsimp only
        split
        · rename_i e _
          have h := catchResponse_status_headers e
          refine ⟨?_, Or.inr h.2⟩
          simp only [List.mem_cons, List.not_mem_nil, or_false] at h ⊢
          tauto
        · exact ⟨by simp, Or.inr rfl⟩

/-- Every suggest-improvements response has a status from the fixed set
and carries the cross-origin headers or their JSON extension. -/
lemma suggestImprovements_status_headers (m : String)
    (parseResult : Except JsError SuggestBody)
    (secrets : Except JsError SupabaseSecrets) (fetch : FetchResult)
    (bedrock : BedrockPrompt → Except JsError String) :
    (suggestImprovements m parseResult secrets fetch bedrock).response.statusCode ∈
      ([200, 400, 404, 429, 500] : List Nat) ∧
    ((suggestImprovements m parseResult secrets fetch bedrock).response.headers = corsHeaders ∨
     (suggestImprovements m parseResult secrets fetch bedrock).response.headers = jsonHeaders) := by
  unfold suggestImprovements
  split
  · exact ⟨by simp [optionsResponse], Or.inl rfl⟩
  · split
    · rename_i e
      have h := catchResponse_status_headers e
      refine ⟨?_, Or.inr h.2⟩
      simp only [List.mem_cons, List.not_mem_nil, or_false] at h ⊢
      tauto
    · split
      · exact ⟨by simp, Or.inr rfl⟩
      · split
        · rename_i e
          have h := catchResponse_status_headers e
          refine ⟨?_, Or.inr h.2⟩
          simp only [List.mem_cons, List.not_mem_nil, or_false] at h ⊢
          tauto
        · split
          · have h := catchResponse_status_headers
              { name := "Error", message := "Supabase credentials not configured" }
            refine ⟨?_, Or.inr h.2⟩
            simp only [List.mem_cons, List.not_mem_nil, or_false] at h ⊢
            tauto
          · split
            · exact ⟨by simp, Or.inr rfl⟩
            · exact ⟨by simp, Or.inr rfl⟩
            · dsimp only
              split
              · rename_i e _
                have h := catchResponse_status_headers e
                refine ⟨?_, Or.inr h.2⟩
                simp only [List.mem_cons, List.not_mem_nil, or_false] at h ⊢
                tauto
              · exact ⟨by simp, Or.inr rfl⟩

/-- C8: both handlers are total over every modeled outcome of the body
parse, secret fetch, datastore fetch, and inference call: the status code
is always one of 200, 400, 404, 429, 500, and every response includes the
fixed permissive cross-origin headers. -/
theorem handlers_total_status_and_cors :
    (∀ (m : String) (parseResult : Except JsError ContinueBody)
       (bedrock : BedrockPrompt → Except JsError String),
      (continueStory m parseResult bedrock).response.statusCode ∈
        ([200, 400, 404, 429, 500] : List Nat) ∧
      ∀ kv ∈ corsHeaders, kv ∈ (continueStory m parseResult bedrock).response.headers) ∧
    (∀ (m : String) (parseResult : Except JsError SuggestBody)
       (secrets : Except JsError SupabaseSecrets) (fetch : FetchResult)
       (bedrock : BedrockPrompt → Except JsError String),
      (suggestImprovements m parseResult secrets fetch bedrock).response.statusCode ∈
        ([200, 400, 404, 429, 500] : List Nat) ∧
      ∀ kv ∈ corsHeaders, kv ∈ (suggestImprovements m parseResult secrets fetch bedrock).response.headers) := by
  constructor
  · intro m parseResult bedrock
    obtain ⟨hs, hh⟩ := continueStory_status_headers m parseResult bedrock
    refine ⟨hs, ?_⟩
    intro kv hkv
    cases hh with
    | inl h => rw [h]; exact hkv
    | inr h => rw [h]; exact corsHeaders_mem_jsonHeaders kv hkv
  · intro m parseResult secrets fetch bedrock
    obtain ⟨hs, hh⟩ := suggestImprovements_status_headers m parseResult secrets fetch bedrock
    refine ⟨hs, ?_⟩
    intro kv hkv
    cases hh with
    | inl h => rw [h]; exact hkv
    | inr h => rw [h]; exact corsHeaders_mem_jsonHeaders kv hkv

/-- Witness: status and cross-origin header membership at a concrete
invocation of each handler. -/
theorem handlers_total_status_and_cors_witness :
    (continueStory "GET" (Except.ok { previousSegments := some [], genre := some "funny" })
        (fun _ => Except.ok "ok")).response.statusCode ∈
      ([200, 400, 404, 429, 500] : List Nat) ∧
    ("Access-Control-Allow-Origin", "*") ∈
      (continueStory "GET" (Except.ok { previousSegments := some [], genre := some "funny" })
        (fun _ => Except.ok "ok")).response.headers ∧
    ("Access-Control-Allow-Origin", "*") ∈
      (suggestImprovements "GET"
        (Except.error { name := "SyntaxError", message := "bad json" })
        (Except.ok { SUPABASE_URL := none, SUPABASE_SERVICE_ROLE_KEY := none })
        { data := none, error := none }
        (fun _ => Except.ok "ok")).response.headers :=
  ⟨(handlers_total_status_and_cors.1 "GET" _ _).1,
   (handlers_total_status_and_cors.1 "GET" _ _).2 _ (by decide),
   (handlers_total_status_and_cors.2 "GET" _ _ _ _).2 _ (by decide)⟩

end Storyclunk
